import Mathlib

/-!
Shallow embedding of the syncthing Ansible modules
(`syncthing_device.py`, `syncthing_folder.py`, `syncthing_gui.py`, with the
shared helpers of `module_utils/syncthing.py`).

Configuration documents are JSON objects; we model each record as a structure
holding the fields the modules read or write, plus an `extra` association list
for the keys the tool does not manage (the daemon may attach arbitrary extra
keys; their values are kept as opaque serialized strings).  Python `dict`
equality on such records coincides with structural equality of these
structures in every comparison the modules perform, because the only
whole-record comparison in the code (`folder_config != folder_config_wanted`)
compares against a freshly built record whose `extra` bag is empty.

Network effects are made explicit: each `run_module` translation returns the
final in-memory configuration together with the number of GET requests issued
and the list of configuration documents POSTed to the daemon.
-/

/-- A device entry of a folder's `devices` list
(`syncthing_folder.py`, `create_folder`). -/
structure FolderDevice where
  deviceID : String
  introducedBy : String
  extra : List (String × String)
deriving DecidableEq

/-- The `minDiskFree` sub-document of a folder. -/
structure MinDiskFree where
  unit : String
  value : Int
  extra : List (String × String)
deriving DecidableEq

/-- The `versioning` sub-document of a folder; its `params` key is a
string-to-string object. -/
structure Versioning where
  params : List (String × String)
  type : String
  extra : List (String × String)
deriving DecidableEq

/-- A folder record of the daemon configuration, with the full key set that
`create_folder` emits plus the unmanaged-key bag. -/
structure Folder where
  autoNormalize : Bool
  copiers : Int
  devices : List FolderDevice
  disableSparseFiles : Bool
  disableTempIndexes : Bool
  filesystemType : String
  fsWatcherDelayS : Int
  fsWatcherEnabled : Bool
  hashers : Int
  id : String
  ignoreDelete : Bool
  ignorePerms : Bool
  label : String
  markerName : String
  maxConflicts : Int
  minDiskFree : MinDiskFree
  order : String
  path : Option String
  paused : Bool
  pullerMaxPendingKiB : Int
  pullerPauseS : Int
  rescanIntervalS : Int
  scanProgressIntervalS : Int
  type : String
  useLargeBlocks : Bool
  versioning : Versioning
  weakHashThresholdPct : Int
  extra : List (String × String)
deriving DecidableEq

/-- A device record of the daemon configuration, with the full key set that
`create_device` emits plus the unmanaged-key bag.  `name` is `Option` because
the module parameter it is copied from is optional (JSON `null` is legal). -/
structure Device where
  addresses : List String
  allowedNetworks : List String
  autoAcceptFolders : Bool
  certName : String
  compression : String
  deviceID : String
  ignoredFolders : List String
  introducedBy : String
  introducer : Bool
  maxRecvKbps : Int
  maxSendKbps : Int
  name : Option String
  paused : Bool
  pendingFolders : List String
  skipIntroductionRemovals : Bool
  extra : List (String × String)
deriving DecidableEq

/-- The `gui` sub-document of the daemon configuration
(`syncthing_gui.py` reads and writes `useTLS`, `address`, `user`,
`password`). -/
structure GuiConfig where
  useTLS : Bool
  address : String
  user : Option String
  password : Option String
  extra : List (String × String)
deriving DecidableEq

/-- The root configuration document fetched from and posted to
`/rest/system/config`. -/
structure Config where
  devices : List Device
  folders : List Folder
  gui : GuiConfig
  extra : List (String × String)
deriving DecidableEq

/-- Python truthiness test for an optional string parameter
(`not module.params[...]`): `None` and the empty string are falsy. -/
def isFalsy : Option String → Bool
  | none => true
  | some s => s = ""

/-! ## syncthing_device -/

/-- The declared parameters of the `syncthing_device` module that
`run_module` reads (`id`, `name`, `state`). -/
structure DeviceParams where
  id : String
  name : Option String
  state : String
deriving DecidableEq

/-- The `state` choices of the `syncthing_device` / `syncthing_folder`
argument specs: `choices=['absent', 'present', 'pause']`.  (The modules'
DOCUMENTATION blocks instead list `['absent', 'present', 'paused']`.) -/
def stateChoices : List String := ["absent", "present", "pause"]

/-- `create_device` of `syncthing_device.py`: builds a full default-valued
device record from the declared parameters.  Note the pause test is against
the string `'paused'`. -/
def create_device (params : DeviceParams) : Device :=
  { addresses := ["dynamic"]
    allowedNetworks := []
    autoAcceptFolders := false
    certName := ""
    compression := "metadata"
    deviceID := params.id
    ignoredFolders := []
    introducedBy := ""
    introducer := false
    maxRecvKbps := 0
    maxSendKbps := 0
    name := params.name
    paused := if params.state = "paused" then true else false
    pendingFolders := []
    skipIntroductionRemovals := false
    extra := [] }

/-- The `state == 'absent'` branch of the device module: remove the first
device whose `deviceID` matches, if any.  Returns the new list and whether a
device was removed (`result['changed']`). -/
def removeFirstDevice (id : String) : List Device → List Device × Bool
  | [] => ([], false)
  | d :: rest =>
    if d.deviceID = id then (rest, true)
    else
      let r := removeFirstDevice id rest
      (d :: r.1, r.2)

/-- The non-absent branch's `for ... break` loop of the device module:
on the first device whose `deviceID` matches, patch its `paused` flag to
`want_pause` when they disagree.  Returns the new list, whether a match was
found (the loop `break`), and whether the flag was patched. -/
def updateFirstDevice (id : String) (wantPause : Bool) :
    List Device → List Device × Bool × Bool
  | [] => ([], false, false)
  | d :: rest =>
    if d.deviceID = id then
      if (wantPause && !d.paused) || (!wantPause && d.paused) then
        ({ d with paused := wantPause } :: rest, true, true)
      else (d :: rest, true, false)
    else
      let r := updateFirstDevice id wantPause rest
      (d :: r.1, r.2)

/-- Outcome of one `syncthing_device.run_module` invocation: `failed` is a
`fail_json` exit, `config` the in-memory document at exit, `diff` the
before/after snapshots of the `devices` collection (the module serializes
them with `safe_dump`; we keep the lists themselves), `gets` the number of
GET requests issued and `posts` the configuration documents POSTed. -/
structure DeviceRun where
  failed : Bool
  changed : Bool
  config : Config
  diff : Option (List Device × List Device)
  gets : Nat
  posts : List Config
deriving DecidableEq

/-- `run_module` of `syncthing_device.py`, given the fetched configuration
`cfg`, the declared parameters and the check-mode flag. -/
def run_module_device (cfg : Config) (params : DeviceParams)
    (checkMode : Bool) : DeviceRun :=
  if params.state ≠ "absent" ∧ isFalsy params.name then
    { failed := true, changed := false, config := cfg, diff := none
      gets := 0, posts := [] }
  else
    let before := cfg.devices
    let devicesChanged : List Device × Bool :=
      if params.state = "absent" then removeFirstDevice params.id cfg.devices
      else
        let r := updateFirstDevice params.id (params.state = "pause") cfg.devices
        if r.2.1 then (r.1, r.2.2)
        else (r.1 ++ [create_device params], true)
    let cfg2 : Config := { cfg with devices := devicesChanged.1 }
    { failed := false
      changed := devicesChanged.2
      config := cfg2
      diff := if devicesChanged.2 then some (before, cfg2.devices) else none
      gets := 1
      posts := if devicesChanged.2 then (if ¬checkMode then [cfg2] else []) else [] }

/-! ## syncthing_folder -/

/-- The declared parameters of the `syncthing_folder` module that
`run_module` reads. -/
structure FolderParams where
  id : String
  label : Option String
  path : Option String
  devices : List String
  fs_watcher : Bool
  ignore_perms : Bool
  type : String
  order : String
  state : String
deriving DecidableEq

/-- `get_devices_mapping` of `syncthing_folder.py`: the device name → device
ID dict comprehension, kept as the association list it is built from (a later
binding for the same name overrides an earlier one, as in a Python dict). -/
def get_devices_mapping (cfg : Config) : List (Option String × String) :=
  cfg.devices.map (fun d => (d.name, d.deviceID))

/-- Python dict lookup over an association list built left to right:
the last binding for a key wins. -/
def dictLookup (m : List (Option String × String)) (k : String) :
    Option String :=
  (m.reverse.find? (fun p => p.1 == some k)).map Prod.snd

/-- `Python params['label'] if params['label'] else params['id']`. -/
def labelOrId (label : Option String) (id : String) : String :=
  match label with
  | none => id
  | some s => if s = "" then id else s

/-- The `wanted_device_ids` set of `create_folder`: start from the local
daemon's own ID and add each declared device reference, resolved through the
name → ID mapping when known, passed through verbatim otherwise. -/
def wanted_device_ids (params : FolderParams) (self_id : String)
    (devices_mapping : List (Option String × String)) : Finset String :=
  params.devices.foldl
    (fun acc d =>
      match dictLookup devices_mapping d with
      | some devId => insert devId acc
      | none => insert d acc)
    {self_id}

/-- `create_folder` of `syncthing_folder.py`: builds the desired folder
record.  The device list keeps `current_device_ids` verbatim when its set
equals the wanted set, and is `sorted(wanted_device_ids)` otherwise. -/
def create_folder (params : FolderParams) (self_id : String)
    (current_device_ids : List String)
    (devices_mapping : List (Option String × String)) : Folder :=
  let wanted := wanted_device_ids params self_id devices_mapping
  let device_ids : List String :=
    if current_device_ids.toFinset = wanted then current_device_ids
    else wanted.sort (· ≤ ·)
  { autoNormalize := true
    copiers := 0
    devices := device_ids.map
      (fun devId => { deviceID := devId, introducedBy := "", extra := [] })
    disableSparseFiles := false
    disableTempIndexes := false
    filesystemType := "basic"
    fsWatcherDelayS := 10
    fsWatcherEnabled := params.fs_watcher
    hashers := 0
    id := params.id
    ignoreDelete := false
    ignorePerms := params.ignore_perms
    label := labelOrId params.label params.id
    markerName := ".stfolder"
    maxConflicts := -1
    minDiskFree := { unit := "%", value := 1, extra := [] }
    order := params.order
    path := params.path
    paused := if params.state = "paused" then true else false
    pullerMaxPendingKiB := 0
    pullerPauseS := 0
    rescanIntervalS := 3600
    scanProgressIntervalS := 0
    type := params.type
    useLargeBlocks := false
    versioning := { params := [], type := "", extra := [] }
    weakHashThresholdPct := 25
    extra := [] }

/-- `get_folder_config` of `syncthing_folder.py`: first folder with the
given `id`, if any. -/
def get_folder_config (folder_id : String) (cfg : Config) : Option Folder :=
  cfg.folders.find? (fun f => f.id == folder_id)

/-- The `state == 'absent'` branch of the folder module: remove the first
folder whose `id` matches, if any. -/
def removeFirstFolder (id : String) : List Folder → List Folder × Bool
  | [] => ([], false)
  | f :: rest =>
    if f.id = id then (rest, true)
    else
      let r := removeFirstFolder id rest
      (f :: r.1, r.2)

/-- The in-place `folder_config.clear(); folder_config.update(wanted)` of the
folder module: the first folder whose `id` matches is replaced wholesale by
the freshly built record. -/
def replaceFirstFolder (id : String) (new : Folder) :
    List Folder → List Folder
  | [] => []
  | f :: rest =>
    if f.id = id then new :: rest
    else f :: replaceFirstFolder id new rest

/-- Outcome of one `syncthing_folder.run_module` invocation.  The folder
module never populates a `diff`. -/
structure FolderRun where
  failed : Bool
  changed : Bool
  config : Config
  gets : Nat
  posts : List Config
deriving DecidableEq

/-- `run_module` of `syncthing_folder.py`, given the fetched configuration
`cfg`, the local daemon ID `self_id` (the `myID` field of
`/rest/system/status`), the declared parameters and the check-mode flag.
Note the module returns right after parameter validation when in check mode,
before any GET. -/
def run_module_folder (cfg : Config) (self_id : String)
    (params : FolderParams) (checkMode : Bool) : FolderRun :=
  if params.state ≠ "absent" ∧ isFalsy params.path then
    { failed := true, changed := false, config := cfg, gets := 0, posts := [] }
  else if checkMode then
    { failed := false, changed := false, config := cfg, gets := 0, posts := [] }
  else
    let devices_mapping := get_devices_mapping cfg
    if params.state = "absent" then
      let r := removeFirstFolder params.id cfg.folders
      let cfg2 : Config := { cfg with folders := r.1 }
      { failed := false, changed := r.2, config := cfg2, gets := 2
        posts := if r.2 then [cfg2] else [] }
    else
      let folder_config := get_folder_config params.id cfg
      let folder_config_devices : List String :=
        match folder_config with
        | some f => f.devices.map FolderDevice.deviceID
        | none => []
      let folder_config_wanted :=
        create_folder params self_id folder_config_devices devices_mapping
      match folder_config with
      | none =>
        let cfg2 : Config := { cfg with folders := cfg.folders ++ [folder_config_wanted] }
        { failed := false, changed := true, config := cfg2, gets := 2
          posts := [cfg2] }
      | some f =>
        if f ≠ folder_config_wanted then
          let cfg2 : Config :=
            { cfg with folders := replaceFirstFolder params.id folder_config_wanted cfg.folders }
          { failed := false, changed := true, config := cfg2, gets := 2
            posts := [cfg2] }
        else
          { failed := false, changed := false, config := cfg, gets := 2
            posts := [] }

/-! ## syncthing_gui -/

/-- The declared parameters of the `syncthing_gui` module. -/
structure GuiParams where
  useTLS : Bool
  address : String
  user : Option String
  password : Option String
deriving DecidableEq

/-- Outcome of one `syncthing_gui.run_module` invocation; `diff` holds the
before/after snapshots of the `gui` record. -/
structure GuiRun where
  changed : Bool
  config : Config
  diff : Option (GuiConfig × GuiConfig)
  gets : Nat
  posts : List Config
deriving DecidableEq

/-- `run_module` of `syncthing_gui.py`: three independent field comparisons;
the `password` parameter is written only inside the `user` mismatch branch. -/
def run_module_gui (cfg : Config) (params : GuiParams)
    (checkMode : Bool) : GuiRun :=
  let before := cfg.gui
  let g1 : GuiConfig × Bool :=
    if cfg.gui.useTLS ≠ params.useTLS
    then ({ cfg.gui with useTLS := params.useTLS }, true)
    else (cfg.gui, false)
  let g2 : GuiConfig × Bool :=
    if g1.1.address ≠ params.address
    then ({ g1.1 with address := params.address }, true)
    else g1
  let g3 : GuiConfig × Bool :=
    if g2.1.user ≠ params.user
    then ({ g2.1 with user := params.user, password := params.password }, true)
    else g2
  let cfg2 : Config := { cfg with gui := g3.1 }
  { changed := g3.2
    config := cfg2
    diff := if g3.2 then some (before, g3.1) else none
    gets := 1
    posts := if g3.2 then (if ¬checkMode then [cfg2] else []) else [] }

/-! ## Concrete documents and parameters used to instantiate the theorems -/

/-- A plain GUI record. -/
def exGui : GuiConfig :=
  { useTLS := false, address := "127.0.0.1:8384", user := none
    password := none, extra := [] }

/-- An empty daemon configuration. -/
def exCfg : Config :=
  { devices := [], folders := [], gui := exGui, extra := [] }

/-- Device parameters asking for the paused lifecycle state, using the
only pause-like value the argument spec accepts (`pause`). -/
def exDevPause : DeviceParams :=
  { id := "AAAA-1111", name := some "laptop", state := "pause" }

/-- Device parameters asking for deletion. -/
def exDevAbsent : DeviceParams :=
  { id := "AAAA-1111", name := none, state := "absent" }

/-- Device parameters asking for creation without a name. -/
def exDevNoName : DeviceParams :=
  { id := "AAAA-1111", name := none, state := "present" }

/-- A device unrelated to `exDevPause` / `exDevAbsent` (different ID). -/
def exOtherDevice : Device :=
  create_device { id := "BBBB-2222", name := some "other", state := "present" }

/-- A second unrelated device. -/
def exThirdDevice : Device :=
  create_device { id := "CCCC-3333", name := some "third", state := "present" }

/-- The device with the ID targeted by `exDevAbsent`. -/
def exTargetDevice : Device :=
  create_device { id := "AAAA-1111", name := some "laptop", state := "present" }

/-- A configuration holding three devices, the second being the one
`exDevAbsent` targets. -/
def exCfgThreeDevices : Config :=
  { exCfg with devices := [exOtherDevice, exTargetDevice, exThirdDevice] }

/-- Folder parameters declaring no devices. -/
def exFolderShare : FolderParams :=
  { id := "box", label := none, path := some "/b", devices := []
    fs_watcher := true, ignore_perms := false, type := "sendreceive"
    order := "random", state := "present" }

/-- Folder parameters declaring devices `B` and `C`. -/
def exFolderBC : FolderParams := { exFolderShare with devices := ["B", "C"] }

/-- Folder parameters declaring devices `A`, `B` and `C`. -/
def exFolderABC : FolderParams :=
  { exFolderShare with devices := ["A", "B", "C"] }

/-- Folder parameters with no path (creation must be refused). -/
def exFolderNoPath : FolderParams := { exFolderShare with path := none }

/-- Folder parameters asking for deletion. -/
def exFolderAbsent : FolderParams :=
  { exFolderShare with path := none, state := "absent" }

/-- An existing folder record equal to what `create_folder` would rebuild
for `exFolderShare`, except that the daemon attached an unknown key. -/
def exFolderWithExtra : Folder :=
  { create_folder exFolderShare "ME" ["ME"] [] with
      extra := [("extraKey", "v")] }

/-- A configuration holding only `exFolderWithExtra`. -/
def exCfgFolderExtra : Config := { exCfg with folders := [exFolderWithExtra] }

/-- GUI parameters used to instantiate the dry-run theorem. -/
def exGuiParams : GuiParams :=
  { useTLS := true, address := "0.0.0.0:8384", user := some "admin"
    password := some "hash" }

/-- A configuration holding one device unrelated to the IDs the example
parameters target. -/
def exCfgOneDevice : Config := { exCfg with devices := [exOtherDevice] }

/-- Folder parameters targeting a folder ID other than `box`. -/
def exFolderOther : FolderParams := { exFolderShare with id := "other" }

/-- An existing folder record with ID `other` carrying an unknown key. -/
def exFolderOtherRec : Folder :=
  { create_folder exFolderOther "ME" ["ME"] [] with extra := [("k", "w")] }

/-- A configuration holding the `box` folder (with an unknown key) and the
`other` folder. -/
def exCfgTwoFolders : Config :=
  { exCfg with folders := [exFolderWithExtra, exFolderOtherRec] }

/-! ## Theorems -/

/-- `Finset.sort` is the unique sorted duplicate-free enumeration: any
sorted duplicate-free list with the right elements is the sort. -/
theorem sort_le_eq_of_sorted_nodup {α : Type} [LinearOrder α] [DecidableEq α]
    (s : Finset α) (l : List α) (hs : List.Sorted (· ≤ ·) l) (hn : l.Nodup)
    (ht : l.toFinset = s) : s.sort (· ≤ ·) = l := by
  have hperm : List.Perm (s.sort (· ≤ ·)) l :=
    List.perm_of_nodup_nodup_toFinset_eq (s.sort_nodup (· ≤ ·)) hn
      (by rw [Finset.sort_toFinset, ht])
  exact List.eq_of_perm_of_sorted hperm (s.sort_sorted (· ≤ ·)) hs

/-- C2: when the resolved desired device-identifier set equals the set of
the currently-observed device-identifier list, the built folder keeps the
current list verbatim as its device list. -/
theorem create_folder_preserves_current_order
    (params : FolderParams) (self_id : String) (current : List String)
    (mapping : List (Option String × String))
    (h : current.toFinset = wanted_device_ids params self_id mapping) :
    (create_folder params self_id current mapping).devices =
      current.map (fun devId =>
        { deviceID := devId, introducedBy := "", extra := [] }) := by
  have hd : (create_folder params self_id current mapping).devices =
      (if current.toFinset = wanted_device_ids params self_id mapping
       then current
       else (wanted_device_ids params self_id mapping).sort (· ≤ ·)).map
        (fun devId => { deviceID := devId, introducedBy := "", extra := [] }) := rfl
  rw [hd, if_pos h]

/-- Witness for C2: current list `[B, A, C]`, declared devices `[B, C]`,
local ID `A` — the built device list is `[B, A, C]` verbatim. -/
theorem create_folder_preserves_current_order_witness :
    (["B", "A", "C"] : List String).toFinset =
        wanted_device_ids exFolderBC "A" [] ∧
      (create_folder exFolderBC "A" ["B", "A", "C"] []).devices =
        (["B", "A", "C"] : List String).map (fun devId =>
          { deviceID := devId, introducedBy := "", extra := [] }) :=
  ⟨by decide,
   create_folder_preserves_current_order exFolderBC "A" ["B", "A", "C"] []
     (by decide)⟩

/-- C3: when the resolved desired device-identifier set differs from the set
of the currently-observed list, the built folder uses the lexicographically
sorted enumeration of the desired set as its device list. -/
theorem create_folder_sorts_on_change
    (params : FolderParams) (self_id : String) (current : List String)
    (mapping : List (Option String × String))
    (h : current.toFinset ≠ wanted_device_ids params self_id mapping) :
    (create_folder params self_id current mapping).devices =
      ((wanted_device_ids params self_id mapping).sort (· ≤ ·)).map
        (fun devId => { deviceID := devId, introducedBy := "", extra := [] }) := by
  have hd : (create_folder params self_id current mapping).devices =
      (if current.toFinset = wanted_device_ids params self_id mapping
       then current
       else (wanted_device_ids params self_id mapping).sort (· ≤ ·)).map
        (fun devId => { deviceID := devId, introducedBy := "", extra := [] }) := rfl
  rw [hd, if_neg h]

/-- Witness for C3: current list `[B, A]`, declared devices `[A, B, C]`,
local ID `D` — the built device list is the sorted `[A, B, C, D]`. -/
theorem create_folder_sorts_on_change_witness :
    (["B", "A"] : List String).toFinset ≠
        wanted_device_ids exFolderABC "D" [] ∧
      (create_folder exFolderABC "D" ["B", "A"] []).devices =
        (["A", "B", "C", "D"] : List String).map (fun devId =>
          { deviceID := devId, introducedBy := "", extra := [] }) := by
  refine ⟨by decide, ?_⟩
  rw [create_folder_sorts_on_change exFolderABC "D" ["B", "A"] [] (by decide)]
  rw [sort_le_eq_of_sorted_nodup (wanted_device_ids exFolderABC "D" [])
    ["A", "B", "C", "D"]
    (by simp [List.sorted_cons, String.le_iff_toList_le]; decide)
    (by decide) (by decide)]

/-- C1: the reconciliation is not idempotent for the device module.  With
declared state `pause` (the only pause-like choice the argument spec
accepts) against an empty device list, the first run creates the device
unpaused (the builder tests the string `paused`), and the second run then
patches the flag: it reports `changed = true` again and the document after
the second run differs from the document after the first. -/
theorem device_pause_breaks_idempotency :
    (run_module_device exCfg exDevPause false).changed = true ∧
      (run_module_device (run_module_device exCfg exDevPause false).config
          exDevPause false).changed = true ∧
      (run_module_device (run_module_device exCfg exDevPause false).config
          exDevPause false).config ≠
        (run_module_device exCfg exDevPause false).config := by
  decide

/-- C6: the paused lifecycle state does not yield `paused = true` at
creation.  The argument spec accepts `pause` (not the `paused` its
DOCUMENTATION lists), both builders test `paused`, so a device or folder
created with the accepted pause-like state comes out unpaused. -/
theorem create_paused_state_yields_unpaused :
    "pause" ∈ stateChoices ∧ "paused" ∉ stateChoices ∧
      (create_device exDevPause).paused = false ∧
      (create_folder { exFolderShare with state := "pause" } "ME" []
          []).paused = false := by
  decide

/-- Counterexample to C4: the folder module in check mode returns right
after parameter validation — `changed = false` and zero GET requests — on a
state a normal run would change (`changed = true`). -/
theorem folder_check_mode_reports_no_change :
    (run_module_folder exCfg "ME" exFolderShare true).changed = false ∧
      (run_module_folder exCfg "ME" exFolderShare true).gets = 0 ∧
      (run_module_folder exCfg "ME" exFolderShare false).changed = true := by
  decide

/-- Counterexample to C5: an unknown key the daemon attached to an existing
folder record is discarded by the update path (`clear()` followed by
`update(wanted)`): the run flags a change and the posted document's folder
record no longer carries the key. -/
theorem folder_update_discards_unknown_key :
    exCfgFolderExtra.folders.map Folder.extra = [[("extraKey", "v")]] ∧
      (run_module_folder exCfgFolderExtra "ME" exFolderShare false).changed
        = true ∧
      (run_module_folder exCfgFolderExtra "ME" exFolderShare
          false).config.folders.map Folder.extra = [[]] ∧
      (run_module_folder exCfgFolderExtra "ME" exFolderShare false).posts
        = [(run_module_folder exCfgFolderExtra "ME" exFolderShare
            false).config] := by
  decide

/-- C7: in the GUI operation, the final `password` field equals the declared
one exactly when the declared `user` differs from the observed one, and is
the observed value verbatim otherwise; `useTLS`, `address` and `user` always
end up at the declared values. -/
theorem gui_password_written_only_on_user_change
    (cfg : Config) (params : GuiParams) (checkMode : Bool) :
    (run_module_gui cfg params checkMode).config.gui.useTLS = params.useTLS ∧
      (run_module_gui cfg params checkMode).config.gui.address =
        params.address ∧
      (run_module_gui cfg params checkMode).config.gui.user = params.user ∧
      (run_module_gui cfg params checkMode).config.gui.password =
        (if cfg.gui.user = params.user then cfg.gui.password
         else params.password) := by
  by_cases h1 : cfg.gui.useTLS = params.useTLS <;>
    by_cases h2 : cfg.gui.address = params.address <;>
      by_cases h3 : cfg.gui.user = params.user <;>
        simp [run_module_gui, h1, h2, h3]

/-- C4 (amended): dry-run suppresses exactly the POST for the device and GUI
modules (same outcome otherwise); the folder module in check mode issues no
POST either, but it returns right after parameter validation with
`changed = false` and zero GET requests instead of computing the outcome. -/
theorem dry_run_outcomes (cfg : Config) (dp : DeviceParams) (gp : GuiParams)
    (fp : FolderParams) (self_id : String) :
    run_module_device cfg dp true =
        { run_module_device cfg dp false with posts := [] } ∧
      run_module_gui cfg gp true =
        { run_module_gui cfg gp false with posts := [] } ∧
      (run_module_folder cfg self_id fp true).posts = [] ∧
      ((run_module_folder cfg self_id fp true).failed = false →
        run_module_folder cfg self_id fp true =
          { failed := false, changed := false, config := cfg, gets := 0
            posts := [] }) := by
  refine ⟨?_, ?_, ?_, ?_⟩
  · by_cases hv : dp.state ≠ "absent" ∧ isFalsy dp.name = true <;>
      simp [run_module_device, hv]
  · simp [run_module_gui]
  · by_cases hv : fp.state ≠ "absent" ∧ isFalsy fp.path = true <;>
      simp [run_module_folder, hv]
  · by_cases hv : fp.state ≠ "absent" ∧ isFalsy fp.path = true <;>
      simp [run_module_folder, hv]

/-- Witness for the dry-run theorem at concrete inputs, with the folder
validation hypothesis discharged. -/
theorem dry_run_outcomes_witness :
    run_module_device exCfg exDevPause true =
        { run_module_device exCfg exDevPause false with posts := [] } ∧
      run_module_gui exCfg exGuiParams true =
        { run_module_gui exCfg exGuiParams false with posts := [] } ∧
      (run_module_folder exCfg "ME" exFolderShare true).posts = [] ∧
      run_module_folder exCfg "ME" exFolderShare true =
        { failed := false, changed := false, config := exCfg, gets := 0
          posts := [] } :=
  ⟨(dry_run_outcomes exCfg exDevPause exGuiParams exFolderShare "ME").1,
   (dry_run_outcomes exCfg exDevPause exGuiParams exFolderShare "ME").2.1,
   (dry_run_outcomes exCfg exDevPause exGuiParams exFolderShare "ME").2.2.1,
   (dry_run_outcomes exCfg exDevPause exGuiParams exFolderShare "ME").2.2.2
     (by decide)⟩

/-- Removing a device that is not in the list leaves it unchanged and
reports no removal. -/
theorem removeFirstDevice_of_not_found (id : String) (l : List Device)
    (h : ∀ d ∈ l, d.deviceID ≠ id) : removeFirstDevice id l = (l, false) := by
  induction l with
  | nil => rfl
  | cons a rest ih =>
    have ha : a.deviceID ≠ id := h a (List.mem_cons_self a rest)
    have ih2 := ih (fun x hx => h x (List.mem_cons_of_mem a hx))
    simp [removeFirstDevice, ha, ih2]

/-- Removing a folder that is not in the list leaves it unchanged and
reports no removal. -/
theorem removeFirstFolder_of_not_found (id : String) (l : List Folder)
    (h : ∀ f ∈ l, f.id ≠ id) : removeFirstFolder id l = (l, false) := by
  induction l with
  | nil => rfl
  | cons a rest ih =>
    have ha : a.id ≠ id := h a (List.mem_cons_self a rest)
    have ih2 := ih (fun x hx => h x (List.mem_cons_of_mem a hx))
    simp [removeFirstFolder, ha, ih2]

/-- C8: asking for deletion of an entity that is not in the fetched
collection is a no-op: `changed = false`, the configuration is returned
untouched, and nothing is POSTed. -/
theorem absent_nonexistent_is_noop (cfg : Config) (dp : DeviceParams)
    (fp : FolderParams) (self_id : String) (checkMode : Bool) :
    (dp.state = "absent" → (∀ d ∈ cfg.devices, d.deviceID ≠ dp.id) →
      run_module_device cfg dp checkMode =
        { failed := false, changed := false, config := cfg, diff := none
          gets := 1, posts := [] }) ∧
    (fp.state = "absent" → (∀ f ∈ cfg.folders, f.id ≠ fp.id) →
      run_module_folder cfg self_id fp false =
        { failed := false, changed := false, config := cfg, gets := 2
          posts := [] }) := by
  constructor
  · intro hs hnone
    have hrm := removeFirstDevice_of_not_found dp.id cfg.devices hnone
    simp [run_module_device, hs, hrm]
  · intro hs hnone
    have hrm := removeFirstFolder_of_not_found fp.id cfg.folders hnone
    simp [run_module_folder, hs, hrm]

/-- Witness for C8: deletion of device `AAAA-1111` and folder `box` from a
configuration holding neither. -/
theorem absent_nonexistent_is_noop_witness :
    run_module_device exCfgOneDevice exDevAbsent false =
        { failed := false, changed := false, config := exCfgOneDevice
          diff := none, gets := 1, posts := [] } ∧
      run_module_folder exCfgOneDevice "ME" exFolderAbsent false =
        { failed := false, changed := false, config := exCfgOneDevice
          gets := 2, posts := [] } :=
  ⟨(absent_nonexistent_is_noop exCfgOneDevice exDevAbsent exFolderAbsent "ME"
      false).1 (by decide) (by decide),
   (absent_nonexistent_is_noop exCfgOneDevice exDevAbsent exFolderAbsent "ME"
      false).2 (by decide) (by decide)⟩

/-- C9: a non-absent device operation without a name, and a non-absent
folder operation without a path, fail at parameter validation with zero GET
and zero POST requests. -/
theorem missing_required_field_fails_before_network (cfg : Config)
    (dp : DeviceParams) (fp : FolderParams) (self_id : String)
    (checkMode : Bool) :
    (dp.state ≠ "absent" → isFalsy dp.name = true →
      run_module_device cfg dp checkMode =
        { failed := true, changed := false, config := cfg, diff := none
          gets := 0, posts := [] }) ∧
    (fp.state ≠ "absent" → isFalsy fp.path = true →
      run_module_folder cfg self_id fp checkMode =
        { failed := true, changed := false, config := cfg, gets := 0
          posts := [] }) := by
  constructor
  · intro h1 h2
    simp [run_module_device, h1, h2]
  · intro h1 h2
    simp [run_module_folder, h1, h2]

/-- Witness for C9: creating a device with no name and a folder with no
path both fail before any network call. -/
theorem missing_required_field_fails_before_network_witness :
    run_module_device exCfgOneDevice exDevNoName false =
        { failed := true, changed := false, config := exCfgOneDevice
          diff := none, gets := 0, posts := [] } ∧
      run_module_folder exCfgOneDevice "ME" exFolderNoPath false =
        { failed := true, changed := false, config := exCfgOneDevice
          gets := 0, posts := [] } :=
  ⟨(missing_required_field_fails_before_network exCfgOneDevice exDevNoName
      exFolderNoPath "ME" false).1 (by decide) (by decide),
   (missing_required_field_fails_before_network exCfgOneDevice exDevNoName
      exFolderNoPath "ME" false).2 (by decide) (by decide)⟩

/-- Removal when the list splits as non-matching prefix, first match,
suffix: exactly the first match is dropped. -/
theorem removeFirstDevice_split (id : String) (l1 l2 : List Device)
    (d : Device) (hfirst : ∀ x ∈ l1, x.deviceID ≠ id)
    (hd : d.deviceID = id) :
    removeFirstDevice id (l1 ++ d :: l2) = (l1 ++ l2, true) := by
  induction l1 with
  | nil => simp [removeFirstDevice, hd]
  | cons a rest ih =>
    have ha : a.deviceID ≠ id := hfirst a (List.mem_cons_self a rest)
    have ih2 := ih (fun x hx => hfirst x (List.mem_cons_of_mem a hx))
    simp [removeFirstDevice, ha, ih2]

/-- C10: deleting an existing device removes exactly the first entry with
the declared ID — the other devices keep their order and contents, the
folders list, GUI record and unmanaged top-level keys are untouched — and
the run reports a change. -/
theorem absent_removes_exactly_first_match (cfg : Config)
    (dp : DeviceParams) (checkMode : Bool) (l1 l2 : List Device) (d : Device)
    (hs : dp.state = "absent") (hsplit : cfg.devices = l1 ++ d :: l2)
    (hfirst : ∀ x ∈ l1, x.deviceID ≠ dp.id) (hd : d.deviceID = dp.id) :
    (run_module_device cfg dp checkMode).changed = true ∧
      (run_module_device cfg dp checkMode).config.devices = l1 ++ l2 ∧
      (run_module_device cfg dp checkMode).config.folders = cfg.folders ∧
      (run_module_device cfg dp checkMode).config.gui = cfg.gui ∧
      (run_module_device cfg dp checkMode).config.extra = cfg.extra := by
  have hrm := removeFirstDevice_split dp.id l1 l2 d hfirst hd
  simp [run_module_device, hs, hsplit, hrm]

/-- Witness for C10: deleting `AAAA-1111` from a three-device collection
removes exactly the middle entry. -/
theorem absent_removes_exactly_first_match_witness :
    (run_module_device exCfgThreeDevices exDevAbsent false).changed = true ∧
      (run_module_device exCfgThreeDevices exDevAbsent
          false).config.devices = [exOtherDevice] ++ [exThirdDevice] ∧
      (run_module_device exCfgThreeDevices exDevAbsent
          false).config.folders = exCfgThreeDevices.folders ∧
      (run_module_device exCfgThreeDevices exDevAbsent false).config.gui =
        exCfgThreeDevices.gui ∧
      (run_module_device exCfgThreeDevices exDevAbsent false).config.extra =
        exCfgThreeDevices.extra :=
  absent_removes_exactly_first_match exCfgThreeDevices exDevAbsent false
    [exOtherDevice] [exThirdDevice] exTargetDevice (by decide) (by decide)
    (by decide) (by decide)

/-- Every device surviving a removal was in the original list. -/
theorem mem_removeFirstDevice (id : String) (l : List Device) :
    ∀ d ∈ (removeFirstDevice id l).1, d ∈ l := by
  induction l with
  | nil => simp [removeFirstDevice]
  | cons a rest ih =>
    intro d hd
    by_cases ha : a.deviceID = id
    · simp only [removeFirstDevice, if_pos ha] at hd
      exact List.mem_cons_of_mem a hd
    · simp only [removeFirstDevice, if_neg ha] at hd
      rcases List.mem_cons.mp hd with h | h
      · exact h ▸ List.mem_cons_self a rest
      · exact List.mem_cons_of_mem a (ih d h)

/-- Every device in the pause-patching loop's output is an input device,
either untouched or with only its `paused` flag replaced. -/
theorem mem_updateFirstDevice (id : String) (wantPause : Bool)
    (l : List Device) :
    ∀ d ∈ (updateFirstDevice id wantPause l).1,
      d ∈ l ∨ ∃ d₀ ∈ l, d = { d₀ with paused := wantPause } := by
  induction l with
  | nil => simp [updateFirstDevice]
  | cons a rest ih =>
    intro d hd
    by_cases ha : a.deviceID = id
    · by_cases hp :
        ((wantPause && !a.paused) || (!wantPause && a.paused)) = true
      · simp only [updateFirstDevice, if_pos ha, if_pos hp] at hd
        rcases List.mem_cons.mp hd with h | h
        · exact Or.inr ⟨a, List.mem_cons_self a rest, h⟩
        · exact Or.inl (List.mem_cons_of_mem a h)
      · simp only [updateFirstDevice, if_pos ha, if_neg hp] at hd
        exact Or.inl hd
    · simp only [updateFirstDevice, if_neg ha] at hd
      rcases List.mem_cons.mp hd with h | h
      · exact Or.inl (h ▸ List.mem_cons_self a rest)
      · rcases ih d h with h2 | ⟨d₀, hd₀, he⟩
        · exact Or.inl (List.mem_cons_of_mem a h2)
        · exact Or.inr ⟨d₀, List.mem_cons_of_mem a hd₀, he⟩

/-- Every folder surviving a removal was in the original list. -/
theorem mem_removeFirstFolder (id : String) (l : List Folder) :
    ∀ f ∈ (removeFirstFolder id l).1, f ∈ l := by
  induction l with
  | nil => simp [removeFirstFolder]
  | cons a rest ih =>
    intro f hf
    by_cases ha : a.id = id
    · simp only [removeFirstFolder, if_pos ha] at hf
      exact List.mem_cons_of_mem a hf
    · simp only [removeFirstFolder, if_neg ha] at hf
      rcases List.mem_cons.mp hf with h | h
      · exact h ▸ List.mem_cons_self a rest
      · exact List.mem_cons_of_mem a (ih f h)

/-- Every folder after an in-place replacement is the replacement or an
original folder. -/
theorem mem_replaceFirstFolder (id : String) (new : Folder)
    (l : List Folder) :
    ∀ f ∈ replaceFirstFolder id new l, f = new ∨ f ∈ l := by
  induction l with
  | nil => simp [replaceFirstFolder]
  | cons a rest ih =>
    intro f hf
    by_cases ha : a.id = id
    · simp only [replaceFirstFolder, if_pos ha] at hf
      rcases List.mem_cons.mp hf with h | h
      · exact Or.inl h
      · exact Or.inr (List.mem_cons_of_mem a h)
    · simp only [replaceFirstFolder, if_neg ha] at hf
      rcases List.mem_cons.mp hf with h | h
      · exact Or.inr (h ▸ List.mem_cons_self a rest)
      · rcases ih f h with h2 | h2
        · exact Or.inl h2
        · exact Or.inr (List.mem_cons_of_mem a h2)

/-- C5 (amended): unmanaged fields survive reconciliation everywhere except
the folder record being updated.  The device run leaves folders, GUI and
unmanaged top-level keys untouched and only ever removes a device, patches a
pause flag, or appends the freshly built record; the GUI run touches nothing
but the four managed GUI fields; the folder run leaves devices, GUI and
unmanaged top-level keys untouched and keeps every folder other than the
target verbatim (the target record itself is rebuilt wholesale, which is
what discards its unknown keys). -/
theorem unmanaged_fields_preserved (cfg : Config) (dp : DeviceParams)
    (gp : GuiParams) (fp : FolderParams) (self_id : String)
    (checkMode : Bool) :
    ((run_module_device cfg dp checkMode).config.folders = cfg.folders ∧
      (run_module_device cfg dp checkMode).config.gui = cfg.gui ∧
      (run_module_device cfg dp checkMode).config.extra = cfg.extra ∧
      ∀ d ∈ (run_module_device cfg dp checkMode).config.devices,
        d ∈ cfg.devices ∨
          (∃ d₀ ∈ cfg.devices,
            d = { d₀ with paused := decide (dp.state = "pause") }) ∨
          d = create_device dp) ∧
    ((run_module_gui cfg gp checkMode).config.devices = cfg.devices ∧
      (run_module_gui cfg gp checkMode).config.folders = cfg.folders ∧
      (run_module_gui cfg gp checkMode).config.extra = cfg.extra ∧
      (run_module_gui cfg gp checkMode).config.gui.extra = cfg.gui.extra) ∧
    ((run_module_folder cfg self_id fp checkMode).config.devices =
        cfg.devices ∧
      (run_module_folder cfg self_id fp checkMode).config.gui = cfg.gui ∧
      (run_module_folder cfg self_id fp checkMode).config.extra =
        cfg.extra ∧
      ∀ f ∈ (run_module_folder cfg self_id fp checkMode).config.folders,
        f.id ≠ fp.id → f ∈ cfg.folders) := by
  refine ⟨?_, ?_, ?_⟩
  · by_cases hv : dp.state ≠ "absent" ∧ isFalsy dp.name = true
    · refine ⟨by simp [run_module_device, hv], by simp [run_module_device, hv],
        by simp [run_module_device, hv], ?_⟩
      intro d hd
      simp only [run_module_device, if_pos hv] at hd
      exact Or.inl hd
    · by_cases hs : dp.state = "absent"
      · refine ⟨by simp [run_module_device, hv],
          by simp [run_module_device, hv],
          by simp [run_module_device, hv], ?_⟩
        intro d hd
        simp only [run_module_device, if_neg hv, if_pos hs] at hd
        exact Or.inl (mem_removeFirstDevice dp.id cfg.devices d hd)
      · refine ⟨by simp [run_module_device, hv],
          by simp [run_module_device, hv],
          by simp [run_module_device, hv], ?_⟩
        intro d hd
        simp only [run_module_device, if_neg hv, if_neg hs] at hd
        by_cases hf :
            (updateFirstDevice dp.id (decide (dp.state = "pause"))
              cfg.devices).2.1 = true
        · rw [if_pos hf] at hd
          rcases mem_updateFirstDevice dp.id (decide (dp.state = "pause"))
              cfg.devices d hd with h | ⟨d₀, hd₀, he⟩
          · exact Or.inl h
          · exact Or.inr (Or.inl ⟨d₀, hd₀, he⟩)
        · rw [if_neg hf] at hd
          rcases List.mem_append.mp hd with h | h
          · rcases mem_updateFirstDevice dp.id (decide (dp.state = "pause"))
                cfg.devices d h with h2 | ⟨d₀, hd₀, he⟩
            · exact Or.inl h2
            · exact Or.inr (Or.inl ⟨d₀, hd₀, he⟩)
          · exact Or.inr (Or.inr (List.mem_singleton.mp h))
  · refine ⟨by simp [run_module_gui], by simp [run_module_gui],
      by simp [run_module_gui], ?_⟩
    by_cases h1 : cfg.gui.useTLS = gp.useTLS <;>
      by_cases h2 : cfg.gui.address = gp.address <;>
        by_cases h3 : cfg.gui.user = gp.user <;>
          simp [run_module_gui, h1, h2, h3]
  · by_cases hv : fp.state ≠ "absent" ∧ isFalsy fp.path = true
    · refine ⟨by simp [run_module_folder, hv], by simp [run_module_folder, hv],
        by simp [run_module_folder, hv], ?_⟩
      intro f hf h
      simp only [run_module_folder, if_pos hv] at hf
      exact hf
    · by_cases hcm : checkMode = true
      · refine ⟨by simp [run_module_folder, hv, hcm],
          by simp [run_module_folder, hv, hcm],
          by simp [run_module_folder, hv, hcm], ?_⟩
        intro f hf h
        simp only [run_module_folder, if_neg hv, if_pos hcm] at hf
        exact hf
      · by_cases hs : fp.state = "absent"
        · refine ⟨by simp [run_module_folder, hv, hcm, hs],
            by simp [run_module_folder, hv, hcm, hs],
            by simp [run_module_folder, hv, hcm, hs], ?_⟩
          intro f hf h
          simp only [run_module_folder, if_neg hv, if_neg hcm, if_pos hs]
            at hf
          exact mem_removeFirstFolder fp.id cfg.folders f hf
        · have hpath : ¬isFalsy fp.path = true := fun h => hv ⟨hs, h⟩
          cases hfc : get_folder_config fp.id cfg with
          | none =>
            refine ⟨by simp [run_module_folder, hv, hpath, hcm, hs, hfc],
              by simp [run_module_folder, hv, hpath, hcm, hs, hfc],
              by simp [run_module_folder, hv, hpath, hcm, hs, hfc], ?_⟩
            intro f hf h
            simp only [run_module_folder, if_neg hv, if_neg hcm, if_neg hs,
              hfc] at hf
            rcases List.mem_append.mp hf with h2 | h2
            · exact h2
            · exact absurd (congrArg Folder.id (List.mem_singleton.mp h2)) h
          | some f0 =>
            by_cases hne : f0 =
                create_folder fp self_id
                  (f0.devices.map FolderDevice.deviceID)
                  (get_devices_mapping cfg)
            · have hni : ¬(f0 ≠
                  create_folder fp self_id
                    (f0.devices.map FolderDevice.deviceID)
                    (get_devices_mapping cfg)) := not_not_intro hne
              refine ⟨by simp [run_module_folder, hv, hpath, hcm, hs, hfc, hni],
                by simp [run_module_folder, hv, hpath, hcm, hs, hfc, hni],
                by simp [run_module_folder, hv, hpath, hcm, hs, hfc, hni], ?_⟩
              intro f hf h
              simp only [run_module_folder, if_neg hv, if_neg hcm, if_neg hs,
                hfc] at hf
              rw [if_neg hni] at hf
              exact hf
            · refine ⟨by simp [run_module_folder, hv, hpath, hcm, hs, hfc, hne],
                by simp [run_module_folder, hv, hpath, hcm, hs, hfc, hne],
                by simp [run_module_folder, hv, hpath, hcm, hs, hfc, hne], ?_⟩
              intro f hf h
              simp only [run_module_folder, if_neg hv, if_neg hcm, if_neg hs,
                hfc] at hf
              rw [if_pos hne] at hf
              rcases mem_replaceFirstFolder fp.id _ cfg.folders f hf
                  with h2 | h2
              · exact absurd (congrArg Folder.id h2) h
              · exact h2

/-- Witness for the preservation theorem: on a three-device configuration
the pause run leaves folders untouched and its surviving patched device is
an observed device with only the flag flipped; on a two-folder
configuration the update of `box` keeps the `other` folder (and its unknown
key) verbatim. -/
theorem unmanaged_fields_preserved_witness :
    (run_module_device exCfgThreeDevices exDevPause false).config.folders =
        exCfgThreeDevices.folders ∧
      (run_module_gui exCfgThreeDevices exGuiParams false).config.gui.extra =
        exCfgThreeDevices.gui.extra ∧
      { exTargetDevice with paused := true } ∈
        (run_module_device exCfgThreeDevices exDevPause
          false).config.devices ∧
      ({ exTargetDevice with paused := true } ∈ exCfgThreeDevices.devices ∨
        (∃ d₀ ∈ exCfgThreeDevices.devices,
          { exTargetDevice with paused := true } =
            { d₀ with paused := decide (exDevPause.state = "pause") }) ∨
        { exTargetDevice with paused := true } = create_device exDevPause) ∧
      exFolderOtherRec ∈
        (run_module_folder exCfgTwoFolders "ME" exFolderShare
          false).config.folders ∧
      exFolderOtherRec ∈ exCfgTwoFolders.folders :=
  ⟨(unmanaged_fields_preserved exCfgThreeDevices exDevPause exGuiParams
      exFolderShare "ME" false).1.1,
   (unmanaged_fields_preserved exCfgThreeDevices exDevPause exGuiParams
      exFolderShare "ME" false).2.1.2.2.2,
   by decide,
   (unmanaged_fields_preserved exCfgThreeDevices exDevPause exGuiParams
      exFolderShare "ME" false).1.2.2.2
     { exTargetDevice with paused := true } (by decide),
   by decide,
   (unmanaged_fields_preserved exCfgTwoFolders exDevPause exGuiParams
      exFolderShare "ME" false).2.2.2.2.2 exFolderOtherRec (by decide)
     (by decide)⟩
